import Mathlib

/-
Verification of the supacrawl front-end (src/src/app/page.tsx).

The page is a thin orchestration of two HTTP APIs plus audio playback.
We shallowly embed the three handlers (handleScrape, the crawl poll tick
of handleCrawl, handleTextToSpeech) and the generateSpeech adapter as pure
Lean functions over an explicit session state.  Network responses and the
browser environment are inputs; emitted side effects (audio element
manipulation, the outgoing speech request) are recorded as an action trace.

JavaScript runtime values that can reach these handlers are parsed JSON
values, modelled by the inductive type Json below.  JS semantics that the
code relies on are modelled explicitly:
  - property access on null throws a TypeError (jsPropGet),
  - the "in" operator throws on primitives (jsIn),
  - optional chaining short-circuits on nullish values (chainProp),
  - "x || y" picks y when x is falsy (jsOr / errorMessageOfOr),
  - String(x) coercion used by new Error(x) (jsToString).
Object field lists represent the result of JSON.parse, so keys are distinct
and lookup is unambiguous.  Exact TypeError message texts are
engine-specific; we fix representative texts, the claims do not depend on
them.
-/

-- JSON values as produced by JSON.parse (numbers modelled as Int; no claim
-- depends on fractional numerics).
inductive Json where
  | null : Json
  | bool : Bool → Json
  | num : Int → Json
  | str : String → Json
  | arr : List Json → Json
  | obj : List (String × Json) → Json

-- First-match lookup in an object field list (keys distinct after parse).
def lookupField : List (String × Json) → String → Option Json
  | [], _ => none
  | (k, v) :: rest, key => if k = key then some v else lookupField rest key

-- JS truthiness of a value.
def jsTruthy : Json → Bool
  | Json.null => false
  | Json.bool b => b
  | Json.num n => n != 0
  | Json.str s => s != ""
  | Json.arr _ => true
  | Json.obj _ => true

-- String(x) coercion, as used by new Error(x).  Array elements that are
-- null stringify to the empty string inside the comma join.
mutual
def jsToString : Json → String
  | Json.null => "null"
  | Json.bool true => "true"
  | Json.bool false => "false"
  | Json.num n => toString n
  | Json.str s => s
  | Json.arr xs => String.intercalate "," (jsToStringList xs)
  | Json.obj _ => "[object Object]"

def jsToStringList : List Json → List String
  | [] => []
  | Json.null :: rest => "" :: jsToStringList rest
  | j :: rest => jsToString j :: jsToStringList rest
end

-- Property access v.k on a parsed JSON value: throws a TypeError on null,
-- yields undefined (none) on primitives and arrays (no such named
-- property), looks up the field on objects.
def jsPropGet (v : Json) (k : String) : Except String (Option Json) :=
  match v with
  | Json.null => Except.error ("Cannot read properties of null (reading " ++ k ++ ")")
  | Json.obj fs => Except.ok (lookupField fs k)
  | _ => Except.ok none

-- The JS "in" operator: defined on objects and arrays, throws on
-- primitives and null.  The keys used by the page (data, metadata) are
-- not array indices, so arrays answer false.
def jsIn (k : String) (v : Json) : Except String Bool :=
  match v with
  | Json.obj fs => Except.ok (lookupField fs k).isSome
  | Json.arr _ => Except.ok false
  | _ => Except.error ("Cannot use in operator to search for " ++ k ++ " in a non-object")

-- Property access on a value already known to be non-nullish (used behind
-- optional chaining and behind guards established by jsIn).
def propOf : Json → String → Option Json
  | Json.obj fs, k => lookupField fs k
  | _, _ => none

-- Optional chaining base?.k : short-circuits when base is undefined or
-- null, otherwise plain (never-throwing) property access.
def chainProp (base : Option Json) (k : String) : Option Json :=
  match base with
  | none => none
  | some Json.null => none
  | some v => propOf v k

-- x || dflt where x may be undefined (none).
def jsOr (v : Option Json) (dflt : Json) : Json :=
  match v with
  | some j => if jsTruthy j then j else dflt
  | none => dflt

-- Strict comparison of a possibly-undefined property value against a
-- string literal, as in statusData.status === "completed".
def isStatusStr (st : Option Json) (sname : String) : Bool :=
  match st with
  | some (Json.str x) => x == sname
  | _ => false

def isArrayOpt : Option Json → Bool
  | some (Json.arr _) => true
  | _ => false

-- The React state of the page (named after the useState hooks).  result
-- holds whatever parsed JSON value setResult stored; Json.null is the
-- initial no-result state.  audioElement is an opaque handle identifying
-- the current HTMLAudioElement, if any.
structure SessionState where
  url : String
  loading : Bool
  result : Json
  error : Option String
  isPlaying : Bool
  audioElement : Option Nat

-- An HTTP response as observed by the handlers: response.ok, the raw body
-- text, and the outcome of JSON.parse on that text (none when parsing
-- throws).  JSON.parse is host functionality, so its outcome is an input.
structure RawResponse where
  ok : Bool
  text : String
  json : Option Json

def scrapeFailMsg : String := "Failed to scrape URL"

-- new Error(data.message || scrapeFailMsg).message : a truthy message
-- value is coerced with String(), otherwise the generic string is used.
def errorMessageOfOr (mv : Option Json) (dflt : String) : String :=
  match mv with
  | some m => if jsTruthy m then jsToString m else dflt
  | none => dflt

-- handleScrape, given the /scrape response.  Mirrors the source: set
-- loading true and clear error, parse the body (throwing on parse
-- failure), throw data.message || generic on a non-ok status, otherwise
-- store the parsed body; the catch stores the thrown message, the finally
-- clears loading.
def handleScrape (s : SessionState) (r : RawResponse) : SessionState :=
  let s0 : SessionState := { s with loading := true, error := none }
  let s1 : SessionState :=
    match r.json with
    | none => { s0 with error := some ("Invalid JSON response: " ++ r.text) }
    | some data =>
      if r.ok then { s0 with result := data }
      else
        match jsPropGet data "message" with
        | Except.error msg => { s0 with error := some msg }
        | Except.ok mv => { s0 with error := some (errorMessageOfOr mv scrapeFailMsg) }
  { s1 with loading := false }

-- The setInterval period of the crawl poller, in milliseconds.
def pollIntervalMs : Nat := 5000

-- One tick of the crawl poll loop (the setInterval callback in
-- handleCrawl), given the /crawl/{id} response.  Returns the new state and
-- whether the interval keeps running (false models clearInterval).  The
-- callback never consults statusResponse.ok.  A thrown error (parse
-- failure, or the TypeError from statusData.status when statusData is
-- null) is caught: it stops the interval, stores the message, clears
-- loading.
def pollTick (s : SessionState) (r : RawResponse) : SessionState × Bool :=
  match r.json with
  | none => ({ s with error := some ("Invalid JSON response: " ++ r.text), loading := false }, false)
  | some statusData =>
    match jsPropGet statusData "status" with
    | Except.error msg => ({ s with error := some msg, loading := false }, false)
    | Except.ok st =>
      if isStatusStr st "completed" || isStatusStr st "failed" then
        if isStatusStr st "failed" then
          ({ s with error := some "Crawl failed", loading := false }, false)
        else
          ({ s with result := statusData, loading := false }, false)
      else (s, true)

-- Whether a poll response leaves the interval running (non-terminal,
-- parseable, no thrown property access).
def pollContinues (r : RawResponse) : Bool :=
  match r.json with
  | none => false
  | some j =>
    match jsPropGet j "status" with
    | Except.error _ => false
    | Except.ok st => !(isStatusStr st "completed" || isStatusStr st "failed")

-- State of the poller after n ticks fed by the response stream resps;
-- the Bool records whether the interval is still armed.  Tick i fires at
-- pollIntervalMs * (i+1) milliseconds after the crawl start.
def pollRun (resps : Nat → RawResponse) (s : SessionState) : Nat → SessionState × Bool
  | 0 => (s, true)
  | n + 1 =>
    match pollRun resps s n with
    | (s', true) => pollTick s' (resps n)
    | (s', false) => (s', false)

-- ===== Text-to-speech side flow =====

-- The response of the ElevenLabs endpoint as observed by generateSpeech.
structure TtsResponse where
  status : Nat
  statusText : String
  blobSize : Nat

-- response.ok of the fetch API: status in the 200..299 range.
def respOk (status : Nat) : Bool := decide (200 ≤ status) && decide (status < 300)

-- The distinct throw sites of generateSpeech, one constructor per site.
inductive SpeechError where
  | noApiKey : SpeechError
  | unauthorized : SpeechError
  | requestFailed : Nat → String → SpeechError
  | emptyAudio : SpeechError

-- The message attached at each throw site.
def speechErrorMessage : SpeechError → String
  | SpeechError.noApiKey => "ElevenLabs API key is not configured"
  | SpeechError.unauthorized => "Invalid ElevenLabs API key. Please check your configuration."
  | SpeechError.requestFailed status statusText =>
      "Failed to generate speech: " ++ toString status ++ " " ++ statusText
  | SpeechError.emptyAudio => "Received empty audio response"

-- Observable side effects of the speech flow.  requestSpeech is the
-- outgoing network call carrying the (possibly truncated) text; the audio
-- actions identify elements by their opaque handle.
inductive UiAction where
  | pauseAudio : Nat → UiAction
  | removeAudio : Nat → UiAction
  | requestSpeech : Json → UiAction
  | createAudio : Nat → UiAction
  | setPlaying : Bool → UiAction
  | playAudio : Nat → UiAction

-- generateSpeech: checks the key, fetches (the single network request),
-- maps status 401 to the invalid-key error, any other non-ok status to the
-- request-failed error, an empty blob to the empty-audio error, and
-- otherwise returns the object URL of the audio blob.  The returned action
-- list records whether the network request was issued.
def generateSpeech (keyConfigured : Bool) (resp : TtsResponse) (audioUrl : Nat)
    (text : Json) : Except SpeechError Nat × List UiAction :=
  if keyConfigured = false then (Except.error SpeechError.noApiKey, [])
  else if resp.status = 401 then
    (Except.error SpeechError.unauthorized, [UiAction.requestSpeech text])
  else if respOk resp.status = false then
    (Except.error (SpeechError.requestFailed resp.status resp.statusText),
     [UiAction.requestSpeech text])
  else if resp.blobSize = 0 then
    (Except.error SpeechError.emptyAudio, [UiAction.requestSpeech text])
  else (Except.ok audioUrl, [UiAction.requestSpeech text])

-- Text extraction of handleTextToSpeech (lines 230..237 of page.tsx):
--   if ("data" in result && Array.isArray(result.data))
--     text = result.data[0]?.metadata?.description || "";
--   else if ("data" in result && "metadata" in result.data)
--     text = result.data.metadata?.description || "";
-- An Except.error is a thrown TypeError (possible when result.data is a
-- primitive or null under the in operator); both in-guards and both
-- optional chains are embedded exactly.
def extractText (result : Json) : Except String Json :=
  match jsIn "data" result with
  | Except.error e => Except.error e
  | Except.ok hasData =>
    if hasData && isArrayOpt (propOf result "data") then
      match propOf result "data" with
      | some (Json.arr xs) =>
        Except.ok (jsOr (chainProp (chainProp xs.head? "metadata") "description") (Json.str ""))
      | _ => Except.ok (Json.str "")
    else if hasData then
      match propOf result "data" with
      | some dv =>
        match jsIn "metadata" dv with
        | Except.error e => Except.error e
        | Except.ok hasMeta =>
          if hasMeta then
            Except.ok (jsOr (chainProp (propOf dv "metadata") "description") (Json.str ""))
          else Except.ok (Json.str "")
      | none => Except.error "Cannot use in operator to search for metadata in a non-object"
    else Except.ok (Json.str "")

-- The character bound applied before calling the speech API.
def ttsMaxLen : Nat := 5000

-- The .length property: defined for strings and arrays, undefined
-- otherwise.
def jsLengthProp : Json → Option Nat
  | Json.str s => some s.length
  | Json.arr xs => some xs.length
  | _ => none

-- if (text.length > 5000) text = text.substring(0, 5000).  A comparison
-- against undefined is false, so non-strings pass through unless they are
-- arrays long enough to enter the branch, where .substring throws.
def truncateTts (text : Json) : Except String Json :=
  if (jsLengthProp text).getD 0 > ttsMaxLen then
    match text with
    | Json.str s => Except.ok (Json.str (s.take ttsMaxLen))
    | _ => Except.error "text.substring is not a function"
  else Except.ok text

def noTextMsg : String := "No text available to convert to speech"

-- Lines 247..251: stop and drop any currently playing audio element.
def releaseActs (s : SessionState) : List UiAction :=
  match s.audioElement with
  | some h => [UiAction.pauseAudio h, UiAction.removeAudio h]
  | none => []

-- The environment of one handleTextToSpeech invocation: whether the
-- ElevenLabs key is configured, the endpoint response, the object URL and
-- the identity of the audio element the browser would create, and whether
-- audio.play() rejects (with which message).
structure TtsEnv where
  keyConfigured : Bool
  resp : TtsResponse
  audioUrl : Nat
  newAudio : Nat
  playFails : Option String

-- handleTextToSpeech.  Returns the state after the invocation settles and
-- the trace of observable actions, in program order.  The catch stores the
-- thrown message and calls setIsPlaying(false); the finally clears
-- loading.  On success the new element is stored, isPlaying is set, and
-- playback starts; a rejected play() lands in the catch after that.
def handleTextToSpeech (s : SessionState) (env : TtsEnv) : SessionState × List UiAction :=
  if jsTruthy s.result = false then (s, [])
  else
    match extractText s.result with
    | Except.error msg =>
        ({ s with error := some msg, isPlaying := false, loading := false },
         [UiAction.setPlaying false])
    | Except.ok text0 =>
      if jsTruthy text0 = false then
        ({ s with error := some noTextMsg, isPlaying := false, loading := false },
         [UiAction.setPlaying false])
      else
        match truncateTts text0 with
        | Except.error msg =>
            ({ s with error := some msg, isPlaying := false, loading := false },
             [UiAction.setPlaying false])
        | Except.ok text =>
          match generateSpeech env.keyConfigured env.resp env.audioUrl text with
          | (Except.error e, acts) =>
              ({ s with error := some (speechErrorMessage e), isPlaying := false, loading := false },
               releaseActs s ++ acts ++ [UiAction.setPlaying false])
          | (Except.ok _, acts) =>
            match env.playFails with
            | none =>
                ({ s with audioElement := some env.newAudio, isPlaying := true, loading := false },
                 releaseActs s ++ acts ++
                   [UiAction.createAudio env.newAudio, UiAction.setPlaying true,
                    UiAction.playAudio env.newAudio])
            | some msg =>
                ({ s with audioElement := some env.newAudio, error := some msg, isPlaying := false, loading := false },
                 releaseActs s ++ acts ++
                   [UiAction.createAudio env.newAudio, UiAction.setPlaying true,
                    UiAction.playAudio env.newAudio, UiAction.setPlaying false])

-- ===== Audio-handle accounting over action traces =====

-- Number of live audio resources after an action.
def heldAfterAct (n : Nat) : UiAction → Nat
  | UiAction.removeAudio _ => n - 1
  | UiAction.createAudio _ => n + 1
  | _ => n

-- Every intermediate count along the trace stays at most one (the count
-- before the first action is checked by the caller via heldInit).
def heldBounded (n : Nat) : List UiAction → Bool
  | [] => true
  | a :: rest => decide (heldAfterAct n a ≤ 1) && heldBounded (heldAfterAct n a) rest

-- Count after running a whole trace.
def heldFinal (n : Nat) : List UiAction → Nat
  | [] => n
  | a :: rest => heldFinal (heldAfterAct n a) rest

-- Live audio resources associated with a session state.
def heldInit (s : SessionState) : Nat :=
  match s.audioElement with
  | some _ => 1
  | none => 0

-- Scans a trace: true when no network speech request occurs before the
-- handle h has been removed (vacuously true when no request occurs).
def releaseBeforeRequest (h : Nat) : List UiAction → Bool
  | [] => true
  | UiAction.requestSpeech _ :: _ => false
  | UiAction.removeAudio h2 :: rest => h2 == h || releaseBeforeRequest h rest
  | _ :: rest => releaseBeforeRequest h rest

-- ===== Helper lemmas =====

theorem isStatusStr_completed_not_failed (st : Option Json)
    (h : isStatusStr st "completed" = true) : isStatusStr st "failed" = false := by
  match st with
  | none => simp [isStatusStr] at h
  | some Json.null => simp [isStatusStr] at h
  | some (Json.bool b) => simp [isStatusStr] at h
  | some (Json.num n) => simp [isStatusStr] at h
  | some (Json.arr xs) => simp [isStatusStr] at h
  | some (Json.obj fs) => simp [isStatusStr] at h
  | some (Json.str x) =>
    simp [isStatusStr] at h ⊢
    subst h
    decide

theorem pollTick_of_continues (s : SessionState) (r : RawResponse)
    (h : pollContinues r = true) : pollTick s r = (s, true) := by
  cases hj : r.json with
  | none => simp [pollContinues, hj] at h
  | some j =>
    simp [pollContinues, hj] at h
    cases hst : jsPropGet j "status" with
    | error e => simp [hst] at h
    | ok st =>
      simp [hst] at h
      simp [pollTick, hj, hst, h.1, h.2]

-- A neutral session state used by the concrete witnesses below.
def baseState : SessionState :=
  { url := "https://example.com", loading := true, result := Json.null, error := none,
    isPlaying := false, audioElement := none }

-- ===== C1 =====

def c1NullResp : RawResponse := { ok := true, text := "null", json := some Json.null }

/-- C1 counterexample: the poll response body "null" parses as JSON
(JSON.parse yields null), its status is neither completed nor failed, yet
the poller does not leave state untouched and re-poll as the claim states:
reading statusData.status throws, the catch stops the interval, stores the
TypeError message as the error and clears the busy flag. -/
theorem c1_counterexample_null_body :
    c1NullResp.json = some Json.null ∧
    baseState.error = none ∧
    (pollTick baseState c1NullResp).2 = false ∧
    (pollTick baseState c1NullResp).1.error =
      some "Cannot read properties of null (reading status)" ∧
    (pollTick baseState c1NullResp).1.loading = false :=
  ⟨rfl, rfl, rfl, rfl, rfl⟩

/-- C1 (amended): for every poll response, if the body fails to parse the
poller stops, stores the parse error and clears busy; if it parses with
status "completed" it stops, stores the full parsed object as the result
and clears busy; if it parses with status "failed" it stops, sets the
fixed error "Crawl failed" and clears busy; for any other parsed status it
leaves result, error and busy unchanged and keeps the interval armed —
except that a parsed null body (whose status read throws) stops the poller
with the thrown TypeError message stored and busy cleared, like a parse
failure. -/
theorem c1_pollTick_cases (s : SessionState) (r : RawResponse) :
    (r.json = none →
      pollTick s r =
        ({ s with error := some ("Invalid JSON response: " ++ r.text), loading := false }, false)) ∧
    (∀ j st, r.json = some j → jsPropGet j "status" = Except.ok st →
      isStatusStr st "completed" = true →
      pollTick s r = ({ s with result := j, loading := false }, false)) ∧
    (∀ j st, r.json = some j → jsPropGet j "status" = Except.ok st →
      isStatusStr st "failed" = true →
      pollTick s r = ({ s with error := some "Crawl failed", loading := false }, false)) ∧
    (∀ j st, r.json = some j → jsPropGet j "status" = Except.ok st →
      isStatusStr st "completed" = false → isStatusStr st "failed" = false →
      pollTick s r = (s, true)) ∧
    (∀ j msg, r.json = some j → jsPropGet j "status" = Except.error msg →
      pollTick s r = ({ s with error := some msg, loading := false }, false)) := by
  refine ⟨?_, ?_, ?_, ?_, ?_⟩
  · intro h
    simp [pollTick, h]
  · intro j st hj hst hc
    have hf := isStatusStr_completed_not_failed st hc
    simp [pollTick, hj, hst, hc, hf]
  · intro j st hj hst hf
    simp [pollTick, hj, hst, hf]
  · intro j st hj hst hc hf
    simp [pollTick, hj, hst, hc, hf]
  · intro j msg hj hst
    simp [pollTick, hj, hst]

def c1CompletedBody : Json := Json.obj [("status", Json.str "completed"), ("total", Json.num 3)]

def c1CompletedResp : RawResponse := { ok := true, text := "c", json := some c1CompletedBody }

/-- C1 witness: a concrete completed poll response stops the poller,
stores the full parsed object and clears busy. -/
theorem c1_pollTick_cases_witness :
    pollTick baseState c1CompletedResp =
      ({ baseState with result := c1CompletedBody, loading := false }, false) :=
  (c1_pollTick_cases baseState c1CompletedResp).2.1 c1CompletedBody
    (some (Json.str "completed")) rfl rfl rfl

-- ===== C2 =====

def c2EmptyMsgResp : RawResponse :=
  { ok := false, text := "e", json := some (Json.obj [("message", Json.str "")]) }

/-- C2 counterexample: a non-ok scrape response whose parsed body carries
the message field with the empty string produces the generic error, not
the carried message: data.message is falsy, so the or-else picks the
generic string. -/
theorem c2_counterexample_empty_message :
    c2EmptyMsgResp.ok = false ∧
    (handleScrape baseState c2EmptyMsgResp).error = some scrapeFailMsg ∧
    (handleScrape baseState c2EmptyMsgResp).error ≠ some "" :=
  ⟨rfl, rfl, by decide⟩

/-- C2 (amended): for every scrape response with a non-success HTTP status
whose parsed JSON body carries a string message field m, handleScrape sets
the session error to m when m is nonempty and to the generic string
"Failed to scrape URL" when m is empty (a falsy message falls back to the
generic), or to the generic string when no message field is present; the
stored result is left unchanged and busy becomes false. -/
theorem c2_scrape_error_message (s : SessionState) (r : RawResponse) (body : Json)
    (hok : r.ok = false) (hjson : r.json = some body) :
    (∀ m : String, jsPropGet body "message" = Except.ok (some (Json.str m)) →
      handleScrape s r =
        { s with error := some (if m = "" then scrapeFailMsg else m), loading := false }) ∧
    (jsPropGet body "message" = Except.ok none →
      handleScrape s r = { s with error := some scrapeFailMsg, loading := false }) := by
  constructor
  · intro m hm
    by_cases hm0 : m = "" <;>
      simp [handleScrape, hjson, hok, hm, errorMessageOfOr, jsTruthy, jsToString, hm0]
  · intro hm
    simp [handleScrape, hjson, hok, hm, errorMessageOfOr]

def c2BoomResp : RawResponse :=
  { ok := false, text := "e", json := some (Json.obj [("message", Json.str "boom")]) }

/-- C2 witness: a concrete non-ok scrape response with the nonempty
message boom stores boom as the error, keeps the result and clears busy. -/
theorem c2_scrape_error_message_witness :
    handleScrape baseState c2BoomResp =
      { baseState with error := some (if "boom" = "" then scrapeFailMsg else "boom"), loading := false } :=
  (c2_scrape_error_message baseState c2BoomResp (Json.obj [("message", Json.str "boom")])
    rfl rfl).1 "boom" rfl

-- ===== C4 =====

/-- C4: for every scrape response with a success HTTP status whose body
parses as JSON with success true, handleScrape stores the parsed body
unchanged as the result, leaves the error null and clears busy. -/
theorem c4_scrape_success_stores_result (s : SessionState) (r : RawResponse) (body : Json)
    (hok : r.ok = true) (hjson : r.json = some body)
    (_hsucc : jsPropGet body "success" = Except.ok (some (Json.bool true))) :
    handleScrape s r = { s with result := body, error := none, loading := false } := by
  simp [handleScrape, hjson, hok]

def c4Body : Json :=
  Json.obj [("success", Json.bool true),
            ("data", Json.obj [("markdown", Json.str "# Hello")])]

def c4Resp : RawResponse := { ok := true, text := "b", json := some c4Body }

/-- C4 witness: a concrete successful scrape response is stored unchanged
with a null error and busy cleared. -/
theorem c4_scrape_success_stores_result_witness :
    handleScrape baseState c4Resp =
      { baseState with result := c4Body, error := none, loading := false } :=
  c4_scrape_success_stores_result baseState c4Resp c4Body rfl rfl rfl

-- ===== C5 =====

/-- C5: fed any infinite stream of poll responses that all parse and all
carry a non-terminal status, the poller never stops and never changes the
session state: after every number of ticks the interval is still armed,
with no maximum attempt count, backoff or timeout, at the fixed cadence of
5000 milliseconds per tick. -/
theorem c5_poller_never_stops (resps : Nat → RawResponse) (s : SessionState)
    (h : ∀ i, pollContinues (resps i) = true) :
    (∀ n, pollRun resps s n = (s, true)) ∧ pollIntervalMs = 5000 := by
  constructor
  · intro n
    induction n with
    | zero => rfl
    | succ k ih =>
      simp [pollRun, ih, pollTick_of_continues s (resps k) (h k)]
  · rfl

def c5ScrapingResp : RawResponse :=
  { ok := true, text := "s", json := some (Json.obj [("status", Json.str "scraping")]) }

/-- C5 witness: three ticks of a stream of scraping statuses leave the
poller armed and the state untouched. -/
theorem c5_poller_never_stops_witness :
    pollRun (fun _ => c5ScrapingResp) baseState 3 = (baseState, true) ∧ pollIntervalMs = 5000 :=
  ⟨(c5_poller_never_stops (fun _ => c5ScrapingResp) baseState (fun _ => rfl)).1 3,
   (c5_poller_never_stops (fun _ => c5ScrapingResp) baseState (fun _ => rfl)).2⟩

-- ===== C9 =====

/-- C9: for every scrape response with a success HTTP status whose body
parses as JSON, handleScrape stores the parsed body as the result and
leaves the error null with busy cleared, never inspecting the success
field of the body; in particular a 2xx response with success false is
stored as a normal result with no error. -/
theorem c9_scrape_ok_ignores_success_field (s : SessionState) (r : RawResponse) (body : Json)
    (hok : r.ok = true) (hjson : r.json = some body) :
    handleScrape s r = { s with result := body, error := none, loading := false } := by
  simp [handleScrape, hjson, hok]

def c9Body : Json := Json.obj [("success", Json.bool false)]

def c9Resp : RawResponse := { ok := true, text := "b", json := some c9Body }

/-- C9 witness: a concrete 2xx response whose body has success false is
stored as the result with no error. -/
theorem c9_scrape_ok_ignores_success_field_witness :
    handleScrape baseState c9Resp =
      { baseState with result := c9Body, error := none, loading := false } :=
  c9_scrape_ok_ignores_success_field baseState c9Resp c9Body rfl rfl

-- ===== Lemmas about the speech flow =====

-- extractText only returns a value when the result is an object or an
-- array (on primitives the in operator throws); such results are truthy,
-- so they pass the result guard of handleTextToSpeech.
theorem extractText_ok_truthy (j : Json) (t : Json) (h : extractText j = Except.ok t) :
    jsTruthy j = true := by
  cases j with
  | null => simp [extractText, jsIn] at h
  | bool b => simp [extractText, jsIn] at h
  | num n => simp [extractText, jsIn] at h
  | str s => simp [extractText, jsIn] at h
  | arr xs => rfl
  | obj fs => rfl

-- Truncation on a string value never throws and caps at the bound.
theorem truncateTts_str (s : String) :
    truncateTts (Json.str s) =
      Except.ok (Json.str (if s.length > ttsMaxLen then s.take ttsMaxLen else s)) := by
  unfold truncateTts
  simp [jsLengthProp]
  split_ifs <;> rfl

-- generateSpeech performs at most one network request.
theorem generateSpeech_acts (k : Bool) (r : TtsResponse) (u : Nat) (t : Json) :
    (generateSpeech k r u t).2 = [] ∨ (generateSpeech k r u t).2 = [UiAction.requestSpeech t] := by
  unfold generateSpeech
  split_ifs <;> simp

-- With the key configured, generateSpeech always issues exactly the one
-- request carrying the given text, whatever the response.
theorem generateSpeech_requests (k : Bool) (r : TtsResponse) (u : Nat) (t : Json)
    (hk : k = true) : (generateSpeech k r u t).2 = [UiAction.requestSpeech t] := by
  unfold generateSpeech
  rw [hk]
  simp
  split_ifs <;> rfl

theorem heldFinal_append (n : Nat) (t1 t2 : List UiAction) :
    heldFinal n (t1 ++ t2) = heldFinal (heldFinal n t1) t2 := by
  induction t1 generalizing n with
  | nil => rfl
  | cons a rest ih => simp [heldFinal, ih]

theorem heldBounded_append (n : Nat) (t1 t2 : List UiAction) :
    heldBounded n (t1 ++ t2) = (heldBounded n t1 && heldBounded (heldFinal n t1) t2) := by
  induction t1 generalizing n with
  | nil => simp [heldBounded, heldFinal]
  | cons a rest ih => simp [heldBounded, heldFinal, ih, Bool.and_assoc]

-- Shape of every possible handleTextToSpeech outcome: either a no-op or
-- caught-before-release failure leaving the stored handle untouched, or a
-- trace that first releases any held audio, then performs at most one
-- request, then either fails (handle state untouched) or creates and
-- plays the new element (which becomes the stored handle).
theorem speak_trace_cases (s : SessionState) (env : TtsEnv) :
    ((handleTextToSpeech s env).2 = [] ∨ (handleTextToSpeech s env).2 = [UiAction.setPlaying false]) ∧
      (handleTextToSpeech s env).1.audioElement = s.audioElement ∨
    (∃ req tail, (handleTextToSpeech s env).2 = releaseActs s ++ req ++ tail ∧
      (req = [] ∨ ∃ t, req = [UiAction.requestSpeech t]) ∧
      ((tail = [UiAction.setPlaying false] ∧
          (handleTextToSpeech s env).1.audioElement = s.audioElement) ∨
       ((tail = [UiAction.createAudio env.newAudio, UiAction.setPlaying true,
            UiAction.playAudio env.newAudio] ∨
         tail = [UiAction.createAudio env.newAudio, UiAction.setPlaying true,
            UiAction.playAudio env.newAudio, UiAction.setPlaying false]) ∧
        (handleTextToSpeech s env).1.audioElement = some env.newAudio))) := by
  cases ht : jsTruthy s.result with
  | false =>
    left
    constructor
    · left
      simp [handleTextToSpeech, ht]
    · simp [handleTextToSpeech, ht]
  | true =>
    cases hE : extractText s.result with
    | error msg =>
      left
      constructor
      · right
        simp [handleTextToSpeech, ht, hE]
      · simp [handleTextToSpeech, ht, hE]
    | ok text0 =>
      cases ht0 : jsTruthy text0 with
      | false =>
        left
        constructor
        · right
          simp [handleTextToSpeech, ht, hE, ht0]
        · simp [handleTextToSpeech, ht, hE, ht0]
      | true =>
        cases hT : truncateTts text0 with
        | error msg =>
          left
          constructor
          · right
            simp [handleTextToSpeech, ht, hE, ht0, hT]
          · simp [handleTextToSpeech, ht, hE, ht0, hT]
        | ok text =>
          right
          rcases hg : generateSpeech env.keyConfigured env.resp env.audioUrl text with ⟨res, acts⟩
          have hacts : acts = [] ∨ ∃ t, acts = [UiAction.requestSpeech t] := by
            have h2 := generateSpeech_acts env.keyConfigured env.resp env.audioUrl text
            rw [hg] at h2
            rcases h2 with h2 | h2
            · exact Or.inl h2
            · exact Or.inr ⟨text, h2⟩
          cases res with
          | error e =>
            refine ⟨acts, [UiAction.setPlaying false], ?_, hacts, Or.inl ⟨rfl, ?_⟩⟩
            · simp [handleTextToSpeech, ht, hE, ht0, hT, hg]
            · simp [handleTextToSpeech, ht, hE, ht0, hT, hg]
          | ok u =>
            cases hp : env.playFails with
            | none =>
              refine ⟨acts, _, ?_, hacts, Or.inr ⟨Or.inl rfl, ?_⟩⟩
              · simp [handleTextToSpeech, ht, hE, ht0, hT, hg, hp]
              · simp [handleTextToSpeech, ht, hE, ht0, hT, hg, hp]
            | some msg =>
              refine ⟨acts, _, ?_, hacts, Or.inr ⟨Or.inr rfl, ?_⟩⟩
              · simp [handleTextToSpeech, ht, hE, ht0, hT, hg, hp]
              · simp [handleTextToSpeech, ht, hE, ht0, hT, hg, hp]

-- Starting from at most the resources recorded in the state, the live
-- count never exceeds one along one handleTextToSpeech invocation.
theorem speak_heldBounded (s : SessionState) (env : TtsEnv) (n : Nat)
    (hn : n ≤ heldInit s) :
    heldBounded n (handleTextToSpeech s env).2 = true := by
  have hn1 : n ≤ 1 := le_trans hn (by cases h : s.audioElement <;> simp [heldInit, h])
  rcases speak_trace_cases s env with ⟨htr | htr, _⟩ | ⟨req, tail, htr, hreq, htail⟩
  · rw [htr]; rfl
  · rw [htr]
    simp [heldBounded, heldAfterAct]
    omega
  · rw [htr]
    have hrel0 : heldFinal n (releaseActs s) = 0 := by
      cases h : s.audioElement with
      | none =>
        simp [heldInit, h] at hn
        simp [releaseActs, h, heldFinal]
        omega
      | some hdl =>
        simp [releaseActs, h, heldFinal, heldAfterAct]
        omega
    have hrelb : heldBounded n (releaseActs s) = true := by
      cases h : s.audioElement with
      | none => simp [releaseActs, h, heldBounded]
      | some hdl =>
        simp [releaseActs, h, heldBounded, heldAfterAct]
        omega
    have hreqb : heldBounded 0 req = true := by
      rcases hreq with h | ⟨t, h⟩ <;> subst h <;> simp [heldBounded, heldAfterAct]
    have hreq0 : heldFinal 0 req = 0 := by
      rcases hreq with h | ⟨t, h⟩ <;> subst h <;> simp [heldFinal, heldAfterAct]
    have htailb : heldBounded 0 tail = true := by
      rcases htail with ⟨h, _⟩ | ⟨h | h, _⟩ <;> subst h <;>
        simp [heldBounded, heldAfterAct]
    simp [heldBounded_append, heldFinal_append, hrel0, hrelb, hreqb, hreq0, htailb]

-- The live count after one invocation is at most the count the new state
-- records.
theorem speak_heldFinal (s : SessionState) (env : TtsEnv) :
    heldFinal (heldInit s) (handleTextToSpeech s env).2 ≤
      heldInit (handleTextToSpeech s env).1 := by
  rcases speak_trace_cases s env with ⟨htr | htr, hae⟩ | ⟨req, tail, htr, hreq, htail⟩
  · rw [htr]
    simp [heldFinal, heldInit, hae]
  · rw [htr]
    simp [heldFinal, heldAfterAct, heldInit, hae]
  · rw [htr]
    have hreq0 : heldFinal 0 req = 0 := by
      rcases hreq with h | ⟨t, h⟩ <;> subst h <;> simp [heldFinal, heldAfterAct]
    cases h : s.audioElement with
    | none =>
      rcases htail with ⟨ht2, hae⟩ | ⟨ht2 | ht2, hae⟩ <;> subst ht2 <;>
        simp [releaseActs, h, heldFinal_append, heldFinal, heldAfterAct, hreq0, heldInit, hae]
    | some hdl =>
      rcases htail with ⟨ht2, hae⟩ | ⟨ht2 | ht2, hae⟩ <;> subst ht2 <;>
        simp [releaseActs, h, heldFinal_append, heldFinal, heldAfterAct, hreq0, heldInit, hae]

-- When a handle is recorded in the state, any invocation removes it
-- before any network speech request it makes.
theorem speak_releaseBeforeRequest (s : SessionState) (env : TtsEnv) (h : Nat)
    (ha : s.audioElement = some h) :
    releaseBeforeRequest h (handleTextToSpeech s env).2 = true := by
  rcases speak_trace_cases s env with ⟨htr | htr, _⟩ | ⟨req, tail, htr, _, _⟩
  · rw [htr]; rfl
  · rw [htr]; rfl
  · rw [htr]
    simp [releaseActs, ha, releaseBeforeRequest]

-- ===== C3 =====

/-- C3: across two consecutive speak invocations, starting from a state
holding at most one audio handle, the number of simultaneously live audio
resources never exceeds one at any point of the combined action trace, and
any handle still recorded after the first invocation is removed (playback
stopped, element dropped) before the second invocation issues its network
request for new audio. -/
theorem c3_single_audio_handle (s : SessionState) (e1 e2 : TtsEnv) :
    heldInit s ≤ 1 ∧
    heldBounded (heldInit s)
      ((handleTextToSpeech s e1).2 ++ (handleTextToSpeech (handleTextToSpeech s e1).1 e2).2) = true ∧
    (∀ h, (handleTextToSpeech s e1).1.audioElement = some h →
      releaseBeforeRequest h (handleTextToSpeech (handleTextToSpeech s e1).1 e2).2 = true) := by
  refine ⟨?_, ?_, ?_⟩
  · cases h : s.audioElement <;> simp [heldInit, h]
  · rw [heldBounded_append]
    have h1 := speak_heldBounded s e1 (heldInit s) (le_refl _)
    have h2 := speak_heldBounded (handleTextToSpeech s e1).1 e2
      (heldFinal (heldInit s) (handleTextToSpeech s e1).2) (speak_heldFinal s e1)
    simp [h1, h2]
  · intro h hh
    exact speak_releaseBeforeRequest (handleTextToSpeech s e1).1 e2 h hh

-- A stored scrape result carrying a metadata description, used by the
-- concrete witnesses of the speech claims.
def scrapeDescResult : Json :=
  Json.obj [("success", Json.bool true),
            ("data", Json.obj [("metadata", Json.obj [("description", Json.str "hello")])])]

def c3State : SessionState := { baseState with result := scrapeDescResult, audioElement := some 7 }

def c3Env1 : TtsEnv :=
  { keyConfigured := true, resp := { status := 200, statusText := "OK", blobSize := 10 },
    audioUrl := 3, newAudio := 5, playFails := none }

def c3Env2 : TtsEnv :=
  { keyConfigured := true, resp := { status := 200, statusText := "OK", blobSize := 10 },
    audioUrl := 4, newAudio := 9, playFails := none }

/-- C3 witness: with a held handle and two successful invocations, the
combined trace keeps the live count at most one, and the handle stored by
the first invocation is removed before the second request. -/
theorem c3_single_audio_handle_witness :
    heldBounded (heldInit c3State)
      ((handleTextToSpeech c3State c3Env1).2 ++
        (handleTextToSpeech (handleTextToSpeech c3State c3Env1).1 c3Env2).2) = true ∧
    releaseBeforeRequest 5 (handleTextToSpeech (handleTextToSpeech c3State c3Env1).1 c3Env2).2 = true :=
  ⟨(c3_single_audio_handle c3State c3Env1 c3Env2).2.1,
   (c3_single_audio_handle c3State c3Env1 c3Env2).2.2 5 rfl⟩

-- ===== C6 =====

/-- C6: when the ElevenLabs key is configured, the result extracts to a
nonempty text string and the endpoint answers HTTP 401, speak stores the
unauthorized-class message (the invalid-API-key error of the 401 throw
site) as the session error, the final isPlaying is false, and no action of
the invocation ever sets isPlaying true, so isPlaying remains false
throughout given it was false initially. -/
theorem c6_unauthorized_error (s : SessionState) (env : TtsEnv) (t : String)
    (_hplay : s.isPlaying = false)
    (htext : extractText s.result = Except.ok (Json.str t))
    (hne : t ≠ "")
    (hkey : env.keyConfigured = true)
    (h401 : env.resp.status = 401) :
    (handleTextToSpeech s env).1.error = some (speechErrorMessage SpeechError.unauthorized) ∧
    (handleTextToSpeech s env).1.isPlaying = false ∧
    UiAction.setPlaying true ∉ (handleTextToSpeech s env).2 := by
  have htru : jsTruthy s.result = true := extractText_ok_truthy s.result (Json.str t) htext
  have htt : jsTruthy (Json.str t) = true := by simp [jsTruthy, hne]
  have hgen : ∀ txt : Json, generateSpeech env.keyConfigured env.resp env.audioUrl txt =
      (Except.error SpeechError.unauthorized, [UiAction.requestSpeech txt]) := by
    intro txt
    simp [generateSpeech, hkey, h401]
  refine ⟨?_, ?_, ?_⟩ <;>
    cases ha : s.audioElement <;>
      simp [handleTextToSpeech, htru, htext, htt, truncateTts_str, hgen, releaseActs, ha]

def c6State : SessionState := { baseState with result := scrapeDescResult }

def c6Env : TtsEnv :=
  { keyConfigured := true, resp := { status := 401, statusText := "Unauthorized", blobSize := 0 },
    audioUrl := 3, newAudio := 5, playFails := none }

/-- C6 witness: a concrete 401 response makes speak store the invalid-key
message with isPlaying false and no playing action emitted. -/
theorem c6_unauthorized_error_witness :
    (handleTextToSpeech c6State c6Env).1.error =
      some (speechErrorMessage SpeechError.unauthorized) ∧
    (handleTextToSpeech c6State c6Env).1.isPlaying = false ∧
    UiAction.setPlaying true ∉ (handleTextToSpeech c6State c6Env).2 :=
  c6_unauthorized_error c6State c6Env "hello" rfl rfl (by decide) rfl rfl

-- ===== C7 =====

/-- C7: when the key is configured and the result extracts to a nonempty
text string, the network request of speak carries exactly the first 5000
characters when the text is longer than the bound, and the unmodified text
when it is at or under the bound. -/
theorem c7_truncation (s : SessionState) (env : TtsEnv) (t : String)
    (htext : extractText s.result = Except.ok (Json.str t))
    (hne : t ≠ "")
    (hkey : env.keyConfigured = true) :
    (t.length > ttsMaxLen →
      UiAction.requestSpeech (Json.str (t.take ttsMaxLen)) ∈ (handleTextToSpeech s env).2) ∧
    (t.length ≤ ttsMaxLen →
      UiAction.requestSpeech (Json.str t) ∈ (handleTextToSpeech s env).2) := by
  have htru : jsTruthy s.result = true := extractText_ok_truthy s.result (Json.str t) htext
  have htt : jsTruthy (Json.str t) = true := by simp [jsTruthy, hne]
  constructor
  · intro hlen
    have htr : truncateTts (Json.str t) = Except.ok (Json.str (t.take ttsMaxLen)) := by
      rw [truncateTts_str, if_pos hlen]
    rcases hg : generateSpeech env.keyConfigured env.resp env.audioUrl
        (Json.str (t.take ttsMaxLen)) with ⟨res, acts⟩
    have hacts : acts = [UiAction.requestSpeech (Json.str (t.take ttsMaxLen))] := by
      have h2 := generateSpeech_requests env.keyConfigured env.resp env.audioUrl
        (Json.str (t.take ttsMaxLen)) hkey
      rw [hg] at h2
      exact h2
    subst hacts
    cases res with
    | error e => simp [handleTextToSpeech, htru, htext, htt, htr, hg]
    | ok u =>
      cases hp : env.playFails <;>
        simp [handleTextToSpeech, htru, htext, htt, htr, hg, hp]
  · intro hlen
    have htr : truncateTts (Json.str t) = Except.ok (Json.str t) := by
      rw [truncateTts_str, if_neg (Nat.not_lt.mpr hlen)]
    rcases hg : generateSpeech env.keyConfigured env.resp env.audioUrl (Json.str t)
      with ⟨res, acts⟩
    have hacts : acts = [UiAction.requestSpeech (Json.str t)] := by
      have h2 := generateSpeech_requests env.keyConfigured env.resp env.audioUrl (Json.str t) hkey
      rw [hg] at h2
      exact h2
    subst hacts
    cases res with
    | error e => simp [handleTextToSpeech, htru, htext, htt, htr, hg]
    | ok u =>
      cases hp : env.playFails <;>
        simp [handleTextToSpeech, htru, htext, htt, htr, hg, hp]

/-- C7 witness: the short description hello is sent unmodified. -/
theorem c7_truncation_witness :
    UiAction.requestSpeech (Json.str "hello") ∈ (handleTextToSpeech c6State c3Env1).2 :=
  (c7_truncation c6State c3Env1 "hello" rfl (by decide) rfl).2 (by decide)

-- ===== C8 =====

/-- C8: when the session result is null, speak returns immediately: the
state is unchanged in every field and no action is performed, in
particular no network call. -/
theorem c8_null_result_noop (s : SessionState) (env : TtsEnv) (h : s.result = Json.null) :
    handleTextToSpeech s env = (s, []) := by
  simp [handleTextToSpeech, h, jsTruthy]

/-- C8 witness: a concrete null-result state is left untouched with an
empty trace. -/
theorem c8_null_result_noop_witness :
    handleTextToSpeech baseState c3Env1 = (baseState, []) :=
  c8_null_result_noop baseState c3Env1 rfl

-- ===== C10 =====

/-- C10: when the stored result is a crawl-status object whose data field
is an array that is empty or whose first entry has no metadata
description, speak terminates normally in the no-text failure: the error
becomes the fixed no-text message, isPlaying and busy are cleared, no
network call happens, and no exception escapes, the guarded extraction
being total on these inputs. -/
theorem c10_guarded_extraction (s : SessionState) (env : TtsEnv)
    (fs : List (String × Json)) (xs : List Json)
    (hres : s.result = Json.obj fs)
    (hdata : lookupField fs "data" = some (Json.arr xs))
    (hempty : xs = [] ∨ chainProp (chainProp xs.head? "metadata") "description" = none ∨
      chainProp (chainProp xs.head? "metadata") "description" = some Json.null) :
    handleTextToSpeech s env =
      ({ s with error := some noTextMsg, isPlaying := false, loading := false },
       [UiAction.setPlaying false]) := by
  have hext : extractText s.result = Except.ok (Json.str "") := by
    rcases hempty with he | he | he
    · subst he
      simp [hres, extractText, jsIn, hdata, propOf, isArrayOpt, chainProp, jsOr]
    · simp [hres, extractText, jsIn, hdata, propOf, isArrayOpt, he, jsOr]
    · simp [hres, extractText, jsIn, hdata, propOf, isArrayOpt, he, jsOr, jsTruthy]
  rw [hres] at hext
  simp [handleTextToSpeech, hres, jsTruthy, hext]

def c10Fields : List (String × Json) :=
  [("status", Json.str "completed"), ("total", Json.num 0), ("data", Json.arr [])]

def c10State : SessionState := { baseState with result := Json.obj c10Fields }

/-- C10 witness: a concrete completed crawl status with an empty data
array makes speak fail with the no-text message. -/
theorem c10_guarded_extraction_witness :
    handleTextToSpeech c10State c3Env1 =
      ({ c10State with error := some noTextMsg, isPlaying := false, loading := false },
       [UiAction.setPlaying false]) :=
  c10_guarded_extraction c10State c3Env1 c10Fields [] rfl rfl (Or.inl rfl)
